import Mathlib

/-
Shallow embedding of the selection state machine and rendering dispatcher of
static/js/index.js (the media-catalog explorer).

Modelling conventions:
- JS strings are Lean Strings; toLowerCase is modelled as mapping
  Char.toLower over the characters (ASCII case folding, which covers the
  extension checks the code performs).
- The mutable globals (state.index, state.events) become the SelectionState
  record, threaded explicitly.
- The detail-viewer DOM pane becomes ViewerContent; playback state of a
  mounted video element (currentTime, duration, paused) is owned by the
  browser media element, so the keydown handler receives the result of
  dom.viewer.querySelector as an explicit Option VideoEl input.
- Real numbers of the playhead are modelled as rationals.
- A JS fetch either yields a parsed response or fails; safeFetchJSON turns
  a non-ok response into a thrown error, modelled as FetchResult.error.
- A thrown TypeError (null dereference) in the keydown handler is modelled
  by Except.error JsError.typeError; the handler mutates nothing before the
  throwing read, so the observable state at that point is unchanged.
-/

namespace Explorer

/-- One captured event, as served by GET /api/data: a file path and a
timestamp string. -/
structure EventRecord where
  file : String
  timestamp : String
deriving DecidableEq

/-- The application state object of index.js: the selected event index
(-1 meaning none, as initialised in the source) and the loaded events. -/
structure SelectionState where
  index : Int
  events : List EventRecord
deriving DecidableEq

/-- Initial state: index -1, no events. -/
def initState : SelectionState := { index := -1, events := [] }

/-- ASCII case folding, modelling String.prototype.toLowerCase as used on
file extensions. -/
def toLowerCase (s : String) : String := ⟨s.data.map Char.toLower⟩

/-- Modelling String.prototype.endsWith via list suffixes. -/
def endsWith (s suffix : String) : Bool := decide (suffix.data <:+ s.data)

/-- isImage from the source: file.toLowerCase().endsWith(".jpg"). -/
def isImage (file : String) : Bool := endsWith (toLowerCase file) ".jpg"

/-- isVideo from the source: file.toLowerCase().endsWith(".mp4"). -/
def isVideo (file : String) : Bool := endsWith (toLowerCase file) ".mp4"

/-- Content of the detail-viewer pane (dom.viewer). -/
inductive ViewerContent where
  | empty : ViewerContent
  | image (file : String) : ViewerContent
  | video (file : String) : ViewerContent
deriving DecidableEq

/-- renderViewer from the source: two sequential ifs. An image file mounts
an img element, a video file mounts a video element; any other extension
falls through both ifs and leaves the pane exactly as it was. -/
def renderViewer (event : EventRecord) (viewer : ViewerContent) : ViewerContent :=
  let v1 := if isImage event.file then ViewerContent.image event.file else viewer
  let v2 := if isVideo event.file then ViewerContent.video event.file else v1
  v2

/-- The viewer pane is displaying the given event. -/
def viewerShows (viewer : ViewerContent) (event : EventRecord) : Prop :=
  viewer = ViewerContent.image event.file ∨ viewer = ViewerContent.video event.file

instance (viewer : ViewerContent) (event : EventRecord) :
    Decidable (viewerShows viewer event) := by
  unfold viewerShows
  infer_instance

/-- selectEvent from the source. Out-of-range indices return before any
mutation; in range, state.index is set and the viewer re-rendered for
events[i]. (The thumbnail active-marking and scrollIntoView are pure DOM
presentation with no SelectionState effect and are not modelled.) -/
def selectEvent (s : SelectionState) (viewer : ViewerContent) (i : Int) :
    SelectionState × ViewerContent :=
  if i < 0 ∨ (s.events.length : Int) ≤ i then (s, viewer)
  else
    ({ s with index := i },
     renderViewer (s.events.getD i.toNat { file := "", timestamp := "" }) viewer)

/-- Outcome of the awaited safeFetchJSON call inside selectDate: either the
parsed event list, or a thrown error carrying its message. -/
inductive FetchResult where
  | ok (events : List EventRecord) : FetchResult
  | error (msg : String) : FetchResult
deriving DecidableEq

/-- An HTTP response as seen by safeFetchJSON: its ok flag, status and
parsed JSON body. A transport failure means no response at all. -/
structure HttpResponse where
  ok : Bool
  status : Nat
  body : List EventRecord
deriving DecidableEq

/-- safeFetchJSON from the source: a transport failure rejects; a non-ok
response throws Request failed with the status; otherwise the JSON body is
returned. -/
def safeFetchJSON : Option HttpResponse → FetchResult
  | none => FetchResult.error "NetworkError"
  | some r =>
      if r.ok then FetchResult.ok r.body
      else FetchResult.error ("Request failed: " ++ toString r.status)

/-- The resumption of selectDate once its awaited fetch settles. On
success: state.events is overwritten, thumbnails re-rendered, then either
selectEvent(0) (non-empty) or viewer cleared and index set to -1 (empty).
On a thrown error the catch block logs to console.error and touches no
state. The code before the await only re-highlights the date list in the
DOM and touches neither SelectionState nor the viewer, so a selectDate
invocation is observable on SelectionState exactly at this resumption.
Returns (state, viewer, console messages). -/
def selectDateResolve : SelectionState → ViewerContent → FetchResult →
    SelectionState × ViewerContent × List String
  | s, viewer, FetchResult.ok events =>
      if 0 < events.length then
        ((selectEvent { s with events := events } viewer 0).1,
         (selectEvent { s with events := events } viewer 0).2, [])
      else
        ({ s with events := events, index := -1 }, ViewerContent.empty, [])
  | s, viewer, FetchResult.error msg => (s, viewer, ["Failed to load events:", msg])

/-- Playback state of a mounted video element, owned by the browser. -/
structure VideoEl where
  currentTime : ℚ
  duration : ℚ
  paused : Bool
deriving DecidableEq

/-- The KeyJ branch: Math.max(video.currentTime - 0.5, 0.01). -/
def scrubBack (t : ℚ) : ℚ := max (t - 1/2) (1/100)

/-- The KeyL branch: Math.min(video.currentTime + 0.5, video.duration - 0.01). -/
def scrubForward (t d : ℚ) : ℚ := min (t + 1/2) (d - 1/100)

/-- Keyboard codes the keydown handler switches on. -/
inductive Key where
  | arrowRight | arrowLeft | space | keyJ | keyL | other
deriving DecidableEq

/-- A thrown JS error. The keydown handler can only throw a TypeError, by
reading currentTime of a null querySelector result. -/
inductive JsError where
  | typeError
deriving DecidableEq

/-- The keydown listener from the source. Returns the updated
(state, viewer, video element) or the thrown error. With an empty event
list it returns before the switch. Space checks for a null video and
returns; KeyJ and KeyL do not, so with no video mounted they throw a
TypeError before mutating anything. -/
def keydown (s : SelectionState) (viewer : ViewerContent)
    (video : Option VideoEl) (k : Key) :
    Except JsError (SelectionState × ViewerContent × Option VideoEl) :=
  if s.events.length = 0 then Except.ok (s, viewer, video)
  else
    match k with
    | Key.arrowRight =>
        Except.ok ((selectEvent s viewer (s.index + 1)).1,
          (selectEvent s viewer (s.index + 1)).2, video)
    | Key.arrowLeft =>
        Except.ok ((selectEvent s viewer (s.index - 1)).1,
          (selectEvent s viewer (s.index - 1)).2, video)
    | Key.space =>
        match video with
        | none => Except.ok (s, viewer, video)
        | some vid => Except.ok (s, viewer, some { vid with paused := !vid.paused })
    | Key.keyJ =>
        match video with
        | none => Except.error JsError.typeError
        | some vid =>
            Except.ok (s, viewer, some { vid with currentTime := scrubBack vid.currentTime })
    | Key.keyL =>
        match video with
        | none => Except.error JsError.typeError
        | some vid =>
            Except.ok (s, viewer,
              some { vid with currentTime := scrubForward vid.currentTime vid.duration })
    | Key.other => Except.ok (s, viewer, video)

/-- The observable session state the claims range over: SelectionState plus
the viewer pane. -/
structure World where
  sel : SelectionState
  viewer : ViewerContent
deriving DecidableEq

/-- The session starts with empty state and an empty viewer pane. -/
def initWorld : World := { sel := initState, viewer := ViewerContent.empty }

/-- One completed public operation at the event loop: a selectDate fetch
settling (success or failure), a thumbnail click (selectEvent with the
clicked dataset index), or a keydown (with whatever video element the
viewer pane currently holds). -/
inductive Op where
  | fetchResolve (r : FetchResult) : Op
  | clickThumb (i : Int) : Op
  | key (k : Key) (video : Option VideoEl) : Op

/-- Effect of one completed operation on the observable state. A keydown
that throws has mutated nothing before the throw, so the world is
unchanged. -/
def stepOp (w : World) : Op → World
  | Op.fetchResolve r =>
      { sel := (selectDateResolve w.sel w.viewer r).1,
        viewer := (selectDateResolve w.sel w.viewer r).2.1 }
  | Op.clickThumb i =>
      { sel := (selectEvent w.sel w.viewer i).1,
        viewer := (selectEvent w.sel w.viewer i).2 }
  | Op.key k video =>
      match keydown w.sel w.viewer video k with
      | Except.ok (s, v, _) => { sel := s, viewer := v }
      | Except.error _ => w

/-- The observable state after a sequence of completed operations from
session start. -/
def run (ops : List Op) : World := ops.foldl stepOp initWorld

/-- The SelectionState invariant: index is -1 (none) or a valid offset. -/
def indexValid (s : SelectionState) : Prop :=
  s.index = -1 ∨ (0 ≤ s.index ∧ s.index < (s.events.length : Int))

instance (s : SelectionState) : Decidable (indexValid s) := by
  unfold indexValid
  infer_instance

/-! Helper lemmas shared by several claim proofs. -/

theorem selectEvent_of_out_of_range (s : SelectionState) (viewer : ViewerContent)
    (i : Int) (h : i < 0 ∨ (s.events.length : Int) ≤ i) :
    selectEvent s viewer i = (s, viewer) := by
  unfold selectEvent
  rw [if_pos h]

theorem selectEvent_of_in_range (s : SelectionState) (viewer : ViewerContent)
    (i : Int) (h : 0 ≤ i ∧ i < (s.events.length : Int)) :
    selectEvent s viewer i
      = ({ s with index := i },
         renderViewer (s.events.getD i.toNat { file := "", timestamp := "" }) viewer) := by
  unfold selectEvent
  rw [if_neg (by omega)]

theorem indexValid_selectEvent (s : SelectionState) (viewer : ViewerContent)
    (i : Int) (h : indexValid s) : indexValid (selectEvent s viewer i).1 := by
  by_cases hr : i < 0 ∨ (s.events.length : Int) ≤ i
  · rw [selectEvent_of_out_of_range s viewer i hr]
    exact h
  · push_neg at hr
    rw [selectEvent_of_in_range s viewer i hr]
    unfold indexValid
    right
    exact hr

theorem indexValid_selectDateResolve (s : SelectionState) (viewer : ViewerContent)
    (r : FetchResult) (h : indexValid s) :
    indexValid (selectDateResolve s viewer r).1 := by
  cases r with
  | ok events =>
      simp only [selectDateResolve]
      by_cases hlen : 0 < events.length
      · rw [if_pos hlen]
        rw [selectEvent_of_in_range _ _ 0 ⟨le_refl 0, by exact_mod_cast hlen⟩]
        unfold indexValid
        right
        refine ⟨by simp, by simpa using hlen⟩
      · rw [if_neg hlen]
        unfold indexValid
        left
        rfl
  | error msg => exact h

theorem indexValid_keydown (s : SelectionState) (viewer : ViewerContent)
    (video : Option VideoEl) (k : Key) (h : indexValid s) :
    ∀ out, keydown s viewer video k = Except.ok out → indexValid out.1 := by
  intro out hout
  unfold keydown at hout
  by_cases hlen : s.events.length = 0
  · rw [if_pos hlen] at hout
    cases hout
    exact h
  · rw [if_neg hlen] at hout
    cases k with
    | arrowRight =>
        simp only at hout
        cases hout
        exact indexValid_selectEvent s viewer (s.index + 1) h
    | arrowLeft =>
        simp only at hout
        cases hout
        exact indexValid_selectEvent s viewer (s.index - 1) h
    | space =>
        cases video <;> simp only at hout <;> (cases hout; exact h)
    | keyJ =>
        cases video <;> simp only at hout
        · cases hout
        · cases hout; exact h
    | keyL =>
        cases video <;> simp only at hout
        · cases hout
        · cases hout; exact h
    | other =>
        simp only at hout
        cases hout
        exact h

theorem indexValid_stepOp (w : World) (op : Op) (h : indexValid w.sel) :
    indexValid (stepOp w op).sel := by
  cases op with
  | fetchResolve r => exact indexValid_selectDateResolve w.sel w.viewer r h
  | clickThumb i => exact indexValid_selectEvent w.sel w.viewer i h
  | key k video =>
      simp only [stepOp]
      cases hk : keydown w.sel w.viewer video k with
      | ok out =>
          obtain ⟨s1, v1, vid1⟩ := out
          exact indexValid_keydown w.sel w.viewer video k h (s1, v1, vid1) hk
      | error e => exact h

theorem indexValid_foldl (ops : List Op) :
    ∀ w : World, indexValid w.sel → indexValid (ops.foldl stepOp w).sel := by
  induction ops with
  | nil => intro w h; exact h
  | cons op rest ih =>
      intro w h
      exact ih (stepOp w op) (indexValid_stepOp w op h)

/-! The claims. -/

/-- C1: the claim states that only the most recently invoked selectDate is
ever applied to SelectionState, a superseded response being discarded on
arrival. The code has no request token or cancellation: whichever fetch
resolves last overwrites state.events. This theorem evaluates the claimed
race scenario: selectDate is invoked for a first date and then for a second
date, the second fetch resolves first (events list containing b.jpg), then
the first, superseded fetch resolves (events list containing a.jpg). The
final SelectionState holds the stale first list, not the newer second one,
contradicting the claim. -/
theorem c1_stale_response_overwrites_newer_state :
    (run [Op.fetchResolve (FetchResult.ok [{ file := "b.jpg", timestamp := "t2" }]),
          Op.fetchResolve (FetchResult.ok [{ file := "a.jpg", timestamp := "t1" }])]).sel.events
        = [{ file := "a.jpg", timestamp := "t1" }]
      ∧ ([{ file := "a.jpg", timestamp := "t1" }] : List EventRecord)
          ≠ [{ file := "b.jpg", timestamp := "t2" }] := by
  constructor
  · decide
  · decide

/-- C2, counterexample: the claim states that rendering an event with an
unsupported extension raises a visible UnsupportedMediaKind failure rather
than silently rendering nothing. For the concrete record a.png (neither
.jpg nor .mp4), renderViewer returns the viewer pane unchanged: no failure
is raised, nothing is rendered, and the previously mounted image stays. -/
theorem c2_counterexample :
    isImage "a.png" = false
      ∧ isVideo "a.png" = false
      ∧ renderViewer { file := "a.png", timestamp := "t" } (ViewerContent.image "keep.jpg")
          = ViewerContent.image "keep.jpg"
      ∧ ¬ viewerShows
          (renderViewer { file := "a.png", timestamp := "t" } (ViewerContent.image "keep.jpg"))
          { file := "a.png", timestamp := "t" } := by
  refine ⟨by decide, by decide, by decide, by decide⟩

/-- C2, amended: an EventRecord whose extension is neither .jpg nor .mp4 is
never dispatched to the image or video renderer; the viewer render is a
silent no-op that leaves the pane exactly as it was, and no failure is
raised. -/
theorem c2_unsupported_is_silent_noop (event : EventRecord) (viewer : ViewerContent)
    (h1 : isImage event.file = false) (h2 : isVideo event.file = false) :
    renderViewer event viewer = viewer := by
  unfold renderViewer
  rw [h1, h2]
  simp

/-- C2, witness: the amended theorem applied to the concrete record a.png
over an empty viewer pane. -/
theorem c2_witness :
    isImage "a.png" = false
      ∧ isVideo "a.png" = false
      ∧ renderViewer { file := "a.png", timestamp := "t" } ViewerContent.empty
          = ViewerContent.empty :=
  ⟨by decide, by decide,
    c2_unsupported_is_silent_noop { file := "a.png", timestamp := "t" } ViewerContent.empty
      (by decide) (by decide)⟩

/-- C3: the claim states that KeyJ and KeyL with no video mounted are
no-ops raising no error. In the code the Space branch guards against a null
querySelector result but the KeyJ and KeyL branches do not: with a
non-empty event list and an image mounted (so no video element exists),
both read currentTime of null and throw a TypeError. This theorem evaluates
the handler at that failing input. -/
theorem c3_scrub_without_video_throws :
    keydown { index := 0, events := [{ file := "a.jpg", timestamp := "t" }] }
        (ViewerContent.image "a.jpg") none Key.keyJ = Except.error JsError.typeError
      ∧ keydown { index := 0, events := [{ file := "a.jpg", timestamp := "t" }] }
          (ViewerContent.image "a.jpg") none Key.keyL = Except.error JsError.typeError :=
  ⟨rfl, rfl⟩

/-- C4, counterexample: the claim states that a completed selectDate with a
non-empty list leaves the viewer showing events[0]. When events[0] has an
unsupported extension (here a.png) the dispatcher falls through both
renderer branches: index does become 0, but the viewer still shows the
previously mounted image, not events[0]. -/
theorem c4_counterexample :
    (selectDateResolve { index := 0, events := [{ file := "old.jpg", timestamp := "t0" }] }
        (ViewerContent.image "old.jpg")
        (FetchResult.ok [{ file := "a.png", timestamp := "t1" }])).1.index = 0
      ∧ (selectDateResolve { index := 0, events := [{ file := "old.jpg", timestamp := "t0" }] }
          (ViewerContent.image "old.jpg")
          (FetchResult.ok [{ file := "a.png", timestamp := "t1" }])).2.1
          = ViewerContent.image "old.jpg"
      ∧ ¬ viewerShows
          (selectDateResolve { index := 0, events := [{ file := "old.jpg", timestamp := "t0" }] }
            (ViewerContent.image "old.jpg")
            (FetchResult.ok [{ file := "a.png", timestamp := "t1" }])).2.1
          { file := "a.png", timestamp := "t1" } := by
  refine ⟨by decide, by decide, by decide⟩

/-- C4, amended: a completed selectDate with a non-empty fetched list
leaves index = 0, and the viewer shows events[0] whenever its media kind is
supported; when the extension of events[0] is neither .jpg nor .mp4 the
viewer pane is left unchanged. A completed selectDate with an empty list
leaves index = -1 (none) and an empty viewer. -/
theorem c4_selectDate_postcondition (s : SelectionState) (viewer : ViewerContent)
    (e0 : EventRecord) (rest : List EventRecord) :
    ((selectDateResolve s viewer (FetchResult.ok (e0 :: rest))).1.index = 0
      ∧ (viewerShows (selectDateResolve s viewer (FetchResult.ok (e0 :: rest))).2.1 e0
          ∨ ((selectDateResolve s viewer (FetchResult.ok (e0 :: rest))).2.1 = viewer
              ∧ isImage e0.file = false ∧ isVideo e0.file = false)))
    ∧ ((selectDateResolve s viewer (FetchResult.ok [])).1.index = -1
        ∧ (selectDateResolve s viewer (FetchResult.ok [])).2.1 = ViewerContent.empty) := by
  refine ⟨?_, by simp [selectDateResolve]⟩
  have hres : selectDateResolve s viewer (FetchResult.ok (e0 :: rest))
      = ({ index := 0, events := e0 :: rest }, renderViewer e0 viewer, []) := by
    simp only [selectDateResolve]
    rw [if_pos (by simp)]
    rw [selectEvent_of_in_range _ _ 0 ⟨le_refl 0, by simp⟩]
    rfl
  rw [hres]
  refine ⟨rfl, ?_⟩
  unfold renderViewer viewerShows
  cases him : isImage e0.file <;> cases hvid : isVideo e0.file <;> simp

/-- C5: selectEvent with an index outside the valid range returns before
any mutation, leaving state and viewer unchanged; consequently ArrowRight
at the last index and ArrowLeft at index 0 leave everything unchanged (no
wraparound), since the step goes through the same bounds check. -/
theorem c5_out_of_range_noop (s : SelectionState) (viewer : ViewerContent)
    (video : Option VideoEl) (i : Int) :
    ((i < 0 ∨ (s.events.length : Int) ≤ i) → selectEvent s viewer i = (s, viewer))
    ∧ (s.events ≠ [] → s.index = (s.events.length : Int) - 1 →
        keydown s viewer video Key.arrowRight = Except.ok (s, viewer, video))
    ∧ (s.events ≠ [] → s.index = 0 →
        keydown s viewer video Key.arrowLeft = Except.ok (s, viewer, video)) := by
  refine ⟨fun h => selectEvent_of_out_of_range s viewer i h, ?_, ?_⟩
  · intro hne hidx
    have hlen : ¬ s.events.length = 0 := by simpa [List.length_eq_zero] using hne
    unfold keydown
    rw [if_neg hlen]
    rw [selectEvent_of_out_of_range s viewer (s.index + 1) (Or.inr (by omega))]
  · intro hne hidx
    have hlen : ¬ s.events.length = 0 := by simpa [List.length_eq_zero] using hne
    unfold keydown
    rw [if_neg hlen]
    rw [selectEvent_of_out_of_range s viewer (s.index - 1) (Or.inl (by omega))]

/-- C5, witness: a two-event list; selectEvent at the out-of-range index 5
is a no-op, ArrowRight at the last index 1 is a no-op, and ArrowLeft at
index 0 is a no-op. -/
theorem c5_witness :
    selectEvent { index := 1, events := [{ file := "a.jpg", timestamp := "t1" },
        { file := "b.mp4", timestamp := "t2" }] } ViewerContent.empty 5
        = ({ index := 1, events := [{ file := "a.jpg", timestamp := "t1" },
            { file := "b.mp4", timestamp := "t2" }] }, ViewerContent.empty)
    ∧ keydown { index := 1, events := [{ file := "a.jpg", timestamp := "t1" },
        { file := "b.mp4", timestamp := "t2" }] } ViewerContent.empty none Key.arrowRight
        = Except.ok ({ index := 1, events := [{ file := "a.jpg", timestamp := "t1" },
            { file := "b.mp4", timestamp := "t2" }] }, ViewerContent.empty, none)
    ∧ keydown { index := 0, events := [{ file := "a.jpg", timestamp := "t1" },
        { file := "b.mp4", timestamp := "t2" }] } ViewerContent.empty none Key.arrowLeft
        = Except.ok ({ index := 0, events := [{ file := "a.jpg", timestamp := "t1" },
            { file := "b.mp4", timestamp := "t2" }] }, ViewerContent.empty, none) := by
  have h1 := c5_out_of_range_noop { index := 1, events := [{ file := "a.jpg", timestamp := "t1" },
      { file := "b.mp4", timestamp := "t2" }] } ViewerContent.empty none 5
  have h2 := c5_out_of_range_noop { index := 0, events := [{ file := "a.jpg", timestamp := "t1" },
      { file := "b.mp4", timestamp := "t2" }] } ViewerContent.empty none 0
  exact ⟨h1.1 (by decide), h1.2.1 (by decide) (by decide), h2.2.2 (by decide) (by decide)⟩

/-- C6: at every quiescent point, that is after any sequence of completed
public operations starting from the initial session state, the
SelectionState invariant holds: index is -1 (none) or a valid offset into
events. -/
theorem c6_index_invariant (ops : List Op) : indexValid (run ops).sel := by
  unfold run
  exact indexValid_foldl ops initWorld (Or.inl rfl)

/-- C7: classification is case-insensitive on the extension. Any file name
whose trailing characters lowercase to .jpg classifies as an image, and any
file name whose trailing characters lowercase to .mp4 classifies as a
video. -/
theorem c7_classification_case_insensitive (stem ext : String) :
    (ext.data.map Char.toLower = ".jpg".data → isImage (stem ++ ext) = true)
    ∧ (ext.data.map Char.toLower = ".mp4".data → isVideo (stem ++ ext) = true) := by
  obtain ⟨l1⟩ := stem
  obtain ⟨l2⟩ := ext
  constructor <;> intro h
  · unfold isImage endsWith toLowerCase
    apply decide_eq_true
    show _ <:+ (l1 ++ l2).map Char.toLower
    rw [List.map_append, h]
    exact List.suffix_append _ _
  · unfold isVideo endsWith toLowerCase
    apply decide_eq_true
    show _ <:+ (l1 ++ l2).map Char.toLower
    rw [List.map_append, h]
    exact List.suffix_append _ _

/-- C7, witness: the spec examples A.JPG and b.Mp4. -/
theorem c7_witness : isImage "A.JPG" = true ∧ isVideo "b.Mp4" = true :=
  ⟨(c7_classification_case_insensitive "A" ".JPG").1 (by decide),
   (c7_classification_case_insensitive "b" ".Mp4").2 (by decide)⟩

/-- C8: when the awaited fetch of selectDate fails, because the transport
failed (no response) or because the response status was non-2xx (ok flag
false), the thrown error is caught: SelectionState and the viewer are left
exactly as they were, and the diagnostic channel (console.error) receives a
report, so the UI keeps running on the prior state. -/
theorem c8_fetch_failure_preserves_state (s : SelectionState) (viewer : ViewerContent)
    (resp : Option HttpResponse) (h : ∀ r, resp = some r → r.ok = false) :
    (selectDateResolve s viewer (safeFetchJSON resp)).1 = s
    ∧ (selectDateResolve s viewer (safeFetchJSON resp)).2.1 = viewer
    ∧ (selectDateResolve s viewer (safeFetchJSON resp)).2.2 ≠ [] := by
  have hmsg : ∃ msg, safeFetchJSON resp = FetchResult.error msg := by
    cases resp with
    | none => exact ⟨"NetworkError", rfl⟩
    | some r =>
        refine ⟨"Request failed: " ++ toString r.status, ?_⟩
        simp only [safeFetchJSON]
        rw [h r rfl]
        simp
  obtain ⟨msg, hm⟩ := hmsg
  rw [hm]
  exact ⟨rfl, rfl, by simp [selectDateResolve]⟩

/-- C8, witness: a concrete 500 response against the initial state. -/
theorem c8_witness :
    (selectDateResolve initState ViewerContent.empty
        (safeFetchJSON (some { ok := false, status := 500, body := [] }))).1 = initState
    ∧ (selectDateResolve initState ViewerContent.empty
        (safeFetchJSON (some { ok := false, status := 500, body := [] }))).2.1
        = ViewerContent.empty
    ∧ (selectDateResolve initState ViewerContent.empty
        (safeFetchJSON (some { ok := false, status := 500, body := [] }))).2.2 ≠ [] :=
  c8_fetch_failure_preserves_state initState ViewerContent.empty
    (some { ok := false, status := 500, body := [] })
    (fun r hr => by cases hr; rfl)

/-- C9: with a video mounted and a non-empty event list, KeyJ sets the
playhead to max(currentTime - 0.5, 0.01) and KeyL to
min(currentTime + 0.5, duration - 0.01); the result of KeyJ is never below
0.01 and the result of KeyL never above duration - 0.01; and on the spec
scenario (duration 10.0s) scrubbing back from 0.05s lands on 0.01 and
scrubbing forward from 9.99s stays at 9.99. -/
theorem c9_scrub_clamped (s : SelectionState) (viewer : ViewerContent)
    (vid : VideoEl) (h : s.events ≠ []) :
    keydown s viewer (some vid) Key.keyJ
        = Except.ok (s, viewer, some { vid with currentTime := scrubBack vid.currentTime })
    ∧ keydown s viewer (some vid) Key.keyL
        = Except.ok (s, viewer,
            some { vid with currentTime := scrubForward vid.currentTime vid.duration })
    ∧ 1/100 ≤ scrubBack vid.currentTime
    ∧ scrubForward vid.currentTime vid.duration ≤ vid.duration - 1/100
    ∧ scrubBack (1/20) = 1/100
    ∧ scrubForward (999/100) 10 = 999/100 := by
  have hlen : ¬ s.events.length = 0 := by simpa [List.length_eq_zero] using h
  refine ⟨?_, ?_, le_max_right _ _, min_le_right _ _, ?_, ?_⟩
  · unfold keydown
    rw [if_neg hlen]
  · unfold keydown
    rw [if_neg hlen]
  · norm_num [scrubBack]
  · norm_num [scrubForward]

/-- C9, witness: the spec scenario evaluated through the theorem, on a
single-video catalog with a mounted 10.0s video. -/
theorem c9_witness :
    (1 : ℚ)/100 ≤ scrubBack (1/20)
    ∧ scrubBack (1/20) = 1/100
    ∧ scrubForward (999/100) 10 = 999/100
    ∧ scrubForward (999/100) 10 ≤ 10 - 1/100 := by
  have h := c9_scrub_clamped { index := 0, events := [{ file := "v.mp4", timestamp := "t" }] }
      ViewerContent.empty { currentTime := 1/20, duration := 10, paused := false } (by decide)
  have h2 := c9_scrub_clamped { index := 0, events := [{ file := "v.mp4", timestamp := "t" }] }
      ViewerContent.empty { currentTime := 999/100, duration := 10, paused := false } (by decide)
  exact ⟨h.2.2.1, h.2.2.2.2.1, h.2.2.2.2.2, h2.2.2.2.1⟩

/-- C10: with an empty loaded event list the keydown listener returns
before the switch, so every key (arrows, space, J, L or anything else) is a
no-op: state, viewer and video are unchanged and no error is raised, in
particular even when no video element exists. -/
theorem c10_empty_events_keydown_noop (s : SelectionState) (viewer : ViewerContent)
    (video : Option VideoEl) (k : Key) (h : s.events = []) :
    keydown s viewer video k = Except.ok (s, viewer, video) := by
  unfold keydown
  rw [if_pos (by simp [h])]

/-- C10, witness: KeyJ on the initial empty session with no video mounted
raises nothing and changes nothing. -/
theorem c10_witness :
    keydown initState ViewerContent.empty none Key.keyJ
      = Except.ok (initState, ViewerContent.empty, none) :=
  c10_empty_events_keydown_noop initState ViewerContent.empty none Key.keyJ rfl

end Explorer
